import Mathlib

/-!
Verification of the tool adapters in `starter/tools/tools.py` of the
UdaPlay research-agent repository.

The Python module defines a set of `@tool`-decorated adapter functions
(HTTP GET/POST, web search, database introspection, SQL execution,
vector/RAG search).  Each adapter is shallowly embedded below: external
collaborators (the HTTP client, the search provider, the database engine,
the retrieval pipeline, the wall clock) become explicit parameters, and
Python exceptions become the `Except` error channel.  A `try/except`
block becomes a match on the error channel that re-raises the exceptions
its clause does not catch.
-/

/-- Python data values as they occur in this module: parsed JSON bodies,
provider response dicts, pipeline state mappings. -/
inductive PyVal where
  | str (s : String)
  | int (i : Int)
  | bool (b : Bool)
  | none
  | list (xs : List PyVal)
  | dict (kvs : List (String × PyVal))
deriving Repr

/-- Exception classes that can cross the adapters in `tools.py`.
`connectionError` stands for the network-level failures `requests.get` /
`requests.post` raise; `httpError` is what `raise_for_status` raises;
`jsonDecodeError` is what `Response.json` raises on an unparseable body;
`keyError` is Python's mapping-lookup failure; `dbError` stands for the
database engine's native faults (sqlalchemy `OperationalError`,
`NoSuchTableError`, ...). -/
inductive ExnClass where
  | connectionError
  | httpError
  | jsonDecodeError
  | keyError
  | dbError
deriving DecidableEq, Repr

/-- `requests.RequestException` membership for each exception class.
`ConnectionError` and `HTTPError` subclass `RequestException` directly.
`requests.exceptions.JSONDecodeError` subclasses `InvalidJSONError`,
which subclasses `RequestException` (this hierarchy was introduced in
requests 2.27.0, January 2022, and holds in every version this project
can run against: its `tavily` dependency requires a newer requests).
`KeyError` and the database faults are unrelated to requests. -/
def ExnClass.isRequestException : ExnClass → Bool
  | .connectionError => true
  | .httpError => true
  | .jsonDecodeError => true
  | .keyError => false
  | .dbError => false

/-- A raised Python exception: its class plus its rendered message. -/
structure PyExn where
  cls : ExnClass
  msg : String
deriving DecidableEq, Repr

/-! ## HTTP adapters (`GET_request`, `POST_request`)

```python
@tool
def GET_request(url: str) -> str:
    try:
        response = requests.get(url)
        response.raise_for_status()  # Raise an error for bad responses
        return response.json()
    except requests.RequestException as e:
        return f"An error occurred: {e}"

@tool
def POST_request(url: str, data: dict) -> str:
    try:
        response = requests.post(url, json=data)
        response.raise_for_status()  # Raise an error for bad responses
        return response.json()
    except requests.RequestException as e:
        return f"An error occurred: {e}"
```
-/

/-- Outcome of one network round trip performed by the HTTP client:
either the request itself fails (raising a `RequestException` such as
`ConnectionError`, carrying `msg`), or a response with a status code and
a body text comes back. -/
inductive HttpOutcome where
  | failure (msg : String)
  | response (status : Nat) (body : String)
deriving DecidableEq, Repr

/-- The external world the HTTP adapters run against: the network
behavior of `requests.get` and `requests.post`, and the JSON parser used
by `Response.json` (`none` when the body text is not valid JSON). -/
structure HttpEnv where
  httpGet : String → HttpOutcome
  httpPost : String → List (String × PyVal) → HttpOutcome
  parseJson : String → Option PyVal

/-- A received HTTP response. -/
structure Response where
  status : Nat
  body : String
deriving DecidableEq, Repr

/-- `requests.get(url)`: raises on network failure, otherwise returns the
response. -/
def requests_get (env : HttpEnv) (url : String) : Except PyExn Response :=
  match env.httpGet url with
  | .failure m => .error ⟨.connectionError, m⟩
  | .response st body => .ok ⟨st, body⟩

/-- `requests.post(url, json=data)`: raises on network failure, otherwise
returns the response. -/
def requests_post (env : HttpEnv) (url : String) (data : List (String × PyVal)) :
    Except PyExn Response :=
  match env.httpPost url data with
  | .failure m => .error ⟨.connectionError, m⟩
  | .response st body => .ok ⟨st, body⟩

/-- The message of the `HTTPError` that `raise_for_status` raises
(`"<status> Client Error: ... for url: <url>"` /
`"<status> Server Error: ... for url: <url>"`). -/
def httpErrorMsg (status : Nat) (url : String) : String :=
  toString status ++
    (if status < 500 then " Client Error for url: " else " Server Error for url: ") ++ url

/-- `response.raise_for_status()`: raises `HTTPError` exactly when the
status code is in 400..599, else does nothing. -/
def raise_for_status (r : Response) (url : String) : Except PyExn Unit :=
  if 400 ≤ r.status ∧ r.status < 600 then
    .error ⟨.httpError, httpErrorMsg r.status url⟩
  else
    .ok ()

/-- Message of the `JSONDecodeError` raised by `Response.json` on an
unparseable body. -/
def jsonDecodeErrorMsg : String := "Expecting value: line 1 column 1 (char 0)"

/-- `response.json()`: parse the body; raise `JSONDecodeError` when it is
not valid JSON. -/
def Response.json (env : HttpEnv) (r : Response) : Except PyExn PyVal :=
  match env.parseJson r.body with
  | some v => .ok v
  | Option.none => .error ⟨.jsonDecodeError, jsonDecodeErrorMsg⟩

/-- The `except requests.RequestException as e: return f"An error
occurred: {e}"` clause: catch exactly the `RequestException`s, turning
them into the normal string value; re-raise everything else. -/
def catchRequestException (body : Except PyExn PyVal) : Except PyExn PyVal :=
  match body with
  | .ok v => .ok v
  | .error e =>
    if e.cls.isRequestException then .ok (.str ("An error occurred: " ++ e.msg))
    else .error e

/-- `GET_request(url)` from `tools.py`. -/
def GET_request (env : HttpEnv) (url : String) : Except PyExn PyVal :=
  catchRequestException (do
    let response ← requests_get env url
    let _ ← raise_for_status response url
    let j ← Response.json env response
    pure j)

/-- `POST_request(url, data)` from `tools.py`. -/
def POST_request (env : HttpEnv) (url : String) (data : List (String × PyVal)) :
    Except PyExn PyVal :=
  catchRequestException (do
    let response ← requests_post env url data
    let _ ← raise_for_status response url
    let j ← Response.json env response
    pure j)

/-! ## Web search adapter (`web_search`)

```python
@tool
def web_search(query: str, search_depth: str = "advanced") -> Dict:
    api_key = os.getenv("TAVILY_API_KEY")
    client = TavilyClient(api_key=api_key)
    search_result = client.search(
        query=query, search_depth=search_depth,
        include_answer=True, include_raw_content=False, include_images=False,
    )
    formatted_results = {
        "answer": search_result.get("answer", ""),
        "results": search_result.get("results", []),
        "search_metadata": {"timestamp": datetime.now().isoformat(), "query": query},
    }
    return formatted_results
```
-/

/-- Python `dict.get(key, default)` on a mapping rendered as an ordered
association list (first binding wins, as in a Python dict there is at
most one). -/
def dictGet (kvs : List (String × PyVal)) (key : String) (dflt : PyVal) : PyVal :=
  match kvs.find? (fun p => p.1 == key) with
  | some p => p.2
  | Option.none => dflt

/-- A `datetime.datetime` value as sampled by `datetime.now()`. -/
structure DateTime where
  year : Nat
  month : Nat
  day : Nat
  hour : Nat
  minute : Nat
  second : Nat
  microsecond : Nat
deriving DecidableEq, Repr

/-- The invariants `datetime` maintains on its fields
(`MINYEAR = 1 ≤ year ≤ MAXYEAR = 9999`, calendar ranges, `0 ≤
microsecond < 10^6`). -/
def DateTime.Valid (dt : DateTime) : Prop :=
  1 ≤ dt.year ∧ dt.year ≤ 9999 ∧
  1 ≤ dt.month ∧ dt.month ≤ 12 ∧
  1 ≤ dt.day ∧ dt.day ≤ 31 ∧
  dt.hour < 24 ∧ dt.minute < 60 ∧ dt.second < 60 ∧
  dt.microsecond < 1000000

instance (dt : DateTime) : Decidable dt.Valid := by
  unfold DateTime.Valid
  infer_instance

/-- Two-digit zero-padded decimal rendering (Python `%02d` for values
below 100). -/
def pad2 (n : Nat) : List Char :=
  [Nat.digitChar (n / 10), Nat.digitChar (n % 10)]

/-- Four-digit zero-padded decimal rendering (Python `%04d` for values
below 10000). -/
def pad4 (n : Nat) : List Char :=
  [Nat.digitChar (n / 1000), Nat.digitChar (n / 100 % 10),
   Nat.digitChar (n / 10 % 10), Nat.digitChar (n % 10)]

/-- Six-digit zero-padded decimal rendering (Python `%06d` for values
below 10^6). -/
def pad6 (n : Nat) : List Char :=
  [Nat.digitChar (n / 100000), Nat.digitChar (n / 10000 % 10),
   Nat.digitChar (n / 1000 % 10), Nat.digitChar (n / 100 % 10),
   Nat.digitChar (n / 10 % 10), Nat.digitChar (n % 10)]

/-- `datetime.isoformat()`: `YYYY-MM-DDTHH:MM:SS` with `.ffffff` appended
exactly when the microsecond field is nonzero. -/
def DateTime.isoformat (dt : DateTime) : String :=
  String.mk
    (pad4 dt.year ++ '-' :: pad2 dt.month ++ '-' :: pad2 dt.day ++
     'T' :: pad2 dt.hour ++ ':' :: pad2 dt.minute ++ ':' :: pad2 dt.second ++
     (if dt.microsecond == 0 then [] else '.' :: pad6 dt.microsecond))

/-- Checker for the ISO-8601 extended timestamp shapes that
`datetime.isoformat` can emit: `YYYY-MM-DDTHH:MM:SS` or
`YYYY-MM-DDTHH:MM:SS.ffffff`. -/
def isISO8601 (s : String) : Bool :=
  match s.data with
  | [y1, y2, y3, y4, d1, m1, m2, d2, a1, a2, t, h1, h2, c1, n1, n2, c2, s1, s2] =>
    ([y1, y2, y3, y4, m1, m2, a1, a2, h1, h2, n1, n2, s1, s2].all Char.isDigit) &&
      d1 == '-' && d2 == '-' && t == 'T' && c1 == ':' && c2 == ':'
  | [y1, y2, y3, y4, d1, m1, m2, d2, a1, a2, t, h1, h2, c1, n1, n2, c2, s1, s2,
     dot, u1, u2, u3, u4, u5, u6] =>
    ([y1, y2, y3, y4, m1, m2, a1, a2, h1, h2, n1, n2, s1, s2,
      u1, u2, u3, u4, u5, u6].all Char.isDigit) &&
      d1 == '-' && d2 == '-' && t == 'T' && c1 == ':' && c2 == ':' && dot == '.'
  | _ => false

/-- The external world `web_search` runs against: the Tavily client's
`search` call (query and search depth determine the provider's response
dict) and the wall-clock reading `datetime.now()` returns during the
call. -/
structure SearchEnv where
  search : String → String → List (String × PyVal)
  now : DateTime

/-- The `search_metadata` sub-dict `web_search` builds. -/
structure SearchMetadata where
  timestamp : String
  query : String
deriving DecidableEq, Repr

/-- The `formatted_results` dict `web_search` returns. -/
structure WebSearchResult where
  answer : PyVal
  results : PyVal
  search_metadata : SearchMetadata
deriving Repr

/-- `web_search(query, search_depth="advanced")` from `tools.py`. -/
def web_search (env : SearchEnv) (query : String)
    (search_depth : String := "advanced") : WebSearchResult :=
  let search_result := env.search query search_depth
  { answer := dictGet search_result "answer" (.str "")
    results := dictGet search_result "results" (.list [])
    search_metadata :=
      { timestamp := env.now.isoformat, query := query } }

/-! ## Database introspection and SQL execution

```python
@tool
def list_tables_tool(DB_ENGINE) -> List[str]:
    inspector = sqlalchemy.inspect(DB_ENGINE)
    return inspector.get_table_names()

@tool
def get_table_schema_tool(table_name: str, DB_ENGINE) -> List[str]:
    inspector = sqlalchemy.inspect(DB_ENGINE)
    return str(inspector.get_columns(table_name))

@tool
def execute_sql_tool(query: str, DB_ENGINE) -> Any:
    with DB_ENGINE.begin() as connection:
        answer = connection.execute(text(query)).fetchall()
    return str(answer)
```
-/

/-- Python's single-quote character, as used by `repr` of strings and
dict keys. -/
def pyQuote : String := String.singleton (Char.ofNat 39)

/-- Python `repr` of a string (single-quoted; the strings we render are
assumed not to need escaping). -/
def pyReprStr (s : String) : String := pyQuote ++ s ++ pyQuote

/-- Python `repr` of a boolean. -/
def pyReprBool (b : Bool) : String := if b then "True" else "False"

/-- One column descriptor as the engine's schema-introspection facility
returns it (spec section 6: name / type / nullable / default /
primary-key; the `default` is the rendered server default, absent when
the column has none). -/
structure ColumnDescriptor where
  name : String
  type : String
  nullable : Bool
  default : Option String
  primary_key : Bool
deriving DecidableEq, Repr

/-- Python `repr` of one introspected column dict, its five keys in
declaration order. -/
def ColumnDescriptor.pyRepr (c : ColumnDescriptor) : String :=
  "\x7b" ++ pyReprStr "name" ++ ": " ++ pyReprStr c.name ++
    ", " ++ pyReprStr "type" ++ ": " ++ c.type ++
    ", " ++ pyReprStr "nullable" ++ ": " ++ pyReprBool c.nullable ++
    ", " ++ pyReprStr "default" ++ ": " ++
      (match c.default with
       | some d => pyReprStr d
       | Option.none => "None") ++
    ", " ++ pyReprStr "primary_key" ++ ": " ++ pyReprBool c.primary_key ++ "\x7d"

/-- Comma-join as Python's `str` of a list does between elements. -/
def joinComma : List String → String
  | [] => ""
  | [s] => s
  | s :: rest => s ++ ", " ++ joinComma rest

/-- Python `str` of a list, given the renderings of its elements. -/
def pyListStr (elems : List String) : String := "[" ++ joinComma elems ++ "]"

/-- One database value inside a result row. -/
inductive SqlValue where
  | intVal (i : Int)
  | textVal (s : String)
  | nullVal
deriving DecidableEq, Repr

/-- Python `repr` of one value inside a row tuple. -/
def SqlValue.pyRepr : SqlValue → String
  | .intVal i => toString i
  | .textVal s => pyReprStr s
  | .nullVal => "None"

/-- A result row; sqlalchemy renders it like a tuple, with the trailing
comma of a one-element tuple. -/
def rowPyRepr (r : List SqlValue) : String :=
  match r with
  | [v] => "(" ++ v.pyRepr ++ ",)"
  | _ => "(" ++ joinComma (r.map SqlValue.pyRepr) ++ ")"

/-- The externally owned database engine handle, at the boundary the
adapters use: `connection.execute(text(query)).fetchall()` either
returns all rows or raises the engine's native fault, and
`sqlalchemy.inspect(engine)` gives table names and per-table column
descriptors (raising on an unknown table). -/
structure Engine where
  runQuery : String → Except PyExn (List (List SqlValue))
  get_table_names : List String
  get_columns : String → Except PyExn (List ColumnDescriptor)

/-- Transaction-lifecycle events observable on the engine's connection
during one `with DB_ENGINE.begin() as connection:` block. -/
inductive TxEvent where
  | begin
  | commit
  | rollback
deriving DecidableEq, Repr

/-- `list_tables_tool(DB_ENGINE)` from `tools.py`. -/
def list_tables_tool (DB_ENGINE : Engine) : List String :=
  DB_ENGINE.get_table_names

/-- `get_table_schema_tool(table_name, DB_ENGINE)` from `tools.py`:
`str(inspector.get_columns(table_name))`, with the backend's native
fault propagated when introspection raises. -/
def get_table_schema_tool (table_name : String) (DB_ENGINE : Engine) :
    Except PyExn String :=
  match DB_ENGINE.get_columns table_name with
  | .ok cols => .ok (pyListStr (cols.map ColumnDescriptor.pyRepr))
  | .error e => .error e

/-- `execute_sql_tool(query, DB_ENGINE)` from `tools.py`.  The `with
DB_ENGINE.begin()` context manager opens a transaction, commits it when
the block completes normally, and rolls it back (re-raising) when the
block raises; the second component is the transaction-event trace of the
call. -/
def execute_sql_tool (query : String) (DB_ENGINE : Engine) :
    Except PyExn String × List TxEvent :=
  match DB_ENGINE.runQuery query with
  | .ok answer => (.ok (pyListStr (answer.map rowPyRepr)), [.begin, .commit])
  | .error e => (.error e, [.begin, .rollback])

/-! ## Vector/RAG search adapter (`search_collection`)

```python
@tool
def search_collection(RAG_collection, query):
    result: Run = RAG_collection.invoke(query)
    return result.get_final_state()["answer"]
```
-/

/-- Python mapping subscript `d[key]`: the value when the key is bound,
a raised `KeyError` otherwise. -/
def dictIndex (kvs : List (String × PyVal)) (key : String) : Except PyExn PyVal :=
  match kvs.find? (fun p => p.1 == key) with
  | some p => .ok p.2
  | Option.none => .error ⟨.keyError, key⟩

/-- A `Run`: the completed execution of the retrieval pipeline's state
machine, exposing its terminal state mapping. -/
structure Run where
  final_state : List (String × PyVal)

/-- `run.get_final_state()`. -/
def Run.get_final_state (r : Run) : List (String × PyVal) := r.final_state

/-- The RAG collection handle: `invoke(query)` runs the pipeline
synchronously to completion and returns its `Run`. -/
structure RAGCollection where
  invoke : String → Run

/-- `search_collection(RAG_collection, query)` from `tools.py`. -/
def search_collection (RAG_collection : RAGCollection) (query : String) :
    Except PyExn PyVal :=
  let result : Run := RAG_collection.invoke query
  dictIndex result.get_final_state "answer"

/-! ## Tool descriptor and call-shape checking -/

/-- One observable backend access (a network, database or pipeline side
effect) performed by an invocation target. -/
structure BackendAccess where
  description : String
deriving DecidableEq, Repr

/-- One entry of a tool's declared parameter schema: the parameter's
name and whether the underlying callable gives it a default (so the
caller may omit it). -/
structure ToolParam where
  name : String
  hasDefault : Bool
deriving DecidableEq, Repr

/-- Modelled from the spec: the `tool` decorator lives in `lib.tooling`,
which is not among the provided sources; spec sections 4.1 and 7
describe the descriptor it builds.  A Tool carries a stable name, a
description derived from the callable's documentation, the declared
parameter schema, and the invocation target; the target, when actually
run on an argument mapping, yields its result together with the backend
accesses it performed. -/
structure Tool where
  name : String
  description : String
  params : List ToolParam
  target : List (String × PyVal) → Except PyExn PyVal × List BackendAccess

/-- Outcome of dispatching an invocation request to a tool. -/
inductive InvokeOutcome where
  | result (r : Except PyExn PyVal)
  | callShapeError (message : String)

/-- Modelled from the spec: the descriptor's call-shape check (spec 4.1
and 7) — an argument mapping is rejected with a descriptive error when a
schema parameter without a default is missing from it, or when it binds
a name outside the schema; `none` means the shape is acceptable. -/
def checkCallShape (params : List ToolParam) (args : List (String × PyVal)) :
    Option String :=
  match params.find? (fun p => !p.hasDefault && !(args.any (fun a => a.1 == p.name))) with
  | some p => some ("missing required argument: " ++ p.name)
  | Option.none =>
    match args.find? (fun a => !(params.any (fun p => p.name == a.1))) with
    | some a => some ("unexpected argument: " ++ a.1)
    | Option.none => Option.none

/-- Modelled from the spec: invoking a Tool (spec 4.1, 7, 8) — the
call shape is checked against the declared schema before the invocation
target runs, so a bad shape is reported with no backend access; a good
shape forwards exactly the given arguments to the target.  The second
component lists the backend accesses the invocation performed. -/
def Tool.invoke (t : Tool) (args : List (String × PyVal)) :
    InvokeOutcome × List BackendAccess :=
  match checkCallShape t.params args with
  | some msg => (.callShapeError msg, [])
  | Option.none =>
    let (r, accesses) := t.target args
    (.result r, accesses)

/-! ## Concrete fixtures used by the witness theorems -/

/-- A concrete environment in which GET hits a network failure and POST
gets an HTTP 500 response. -/
def downEnv : HttpEnv where
  httpGet := fun _ => .failure "connection refused"
  httpPost := fun _ _ => .response 500 "oops"
  parseJson := fun _ => Option.none

/-- A concrete environment in which the target URL answers with status
200 and the JSON body `[1]`. -/
def okJsonEnv : HttpEnv where
  httpGet := fun _ => .response 200 "[1]"
  httpPost := fun _ _ => .response 200 "[1]"
  parseJson := fun b => if b == "[1]" then some (.list [.int 1]) else Option.none

/-- A concrete environment in which the target URL answers with status
200 and a body that is not valid JSON. -/
def badJsonEnv : HttpEnv where
  httpGet := fun _ => .response 200 "<html>not json</html>"
  httpPost := fun _ _ => .response 200 "<html>not json</html>"
  parseJson := fun _ => Option.none

/-- A concrete search environment whose provider response has no
`"answer"` binding, sampled at a fixed clock reading. -/
def tavilyEnvNoAnswer : SearchEnv where
  search := fun _ _ => [("results", .list [])]
  now := ⟨2026, 10, 12, 9, 5, 3, 123456⟩

/-- The two columns of the spec's example table
`(id INTEGER PRIMARY KEY, name TEXT NOT NULL)` as the introspection
facility describes them. -/
def exampleCols : List ColumnDescriptor :=
  [⟨"id", "INTEGER()", false, Option.none, true⟩,
   ⟨"name", "TEXT()", false, Option.none, false⟩]

/-- A concrete engine: one table `users` with the example columns;
`SELECT 1` succeeds with one row, anything else raises the engine's
native fault; an unknown table raises the introspection fault. -/
def exampleEngine : Engine where
  runQuery := fun q =>
    if q == "SELECT 1" then .ok [[.intVal 1]]
    else .error ⟨.dbError, "near SELEC: syntax error"⟩
  get_table_names := ["users"]
  get_columns := fun t =>
    if t == "users" then .ok exampleCols
    else .error ⟨.dbError, "no such table: " ++ t⟩

/-- A concrete retrieval pipeline whose terminal state lacks the
`"answer"` key. -/
def ragNoAnswer : RAGCollection where
  invoke := fun _ => ⟨[("sources", .list [])]⟩

/-- A concrete retrieval pipeline whose terminal state is
`{"answer": "42", "sources": [...]}`. -/
def ragWithAnswer : RAGCollection where
  invoke := fun _ => ⟨[("answer", .str "42"), ("sources", .list [.str "doc1"])]⟩

/-- A concrete tool: the registered `GET_request`, whose schema has the
single required parameter `url` and whose target performs one network
access. -/
def demoTool : Tool where
  name := "GET_request"
  description := "Perform a GET request to the specified URL and return the response text in JSON format."
  params := [⟨"url", false⟩]
  target := fun _ => (.ok (.str "ok"), [⟨"network access"⟩])

/-! ## Helper lemmas -/

/-- Decimal digits render to digit characters. -/
theorem digitChar_isDigit (n : Nat) (h : n < 10) : (Nat.digitChar n).isDigit = true := by
  interval_cases n <;> decide

/-- `datetime.isoformat` of any in-range datetime value passes the
ISO-8601 checker. -/
theorem isoformat_isISO8601 (dt : DateTime) (h : dt.Valid) :
    isISO8601 dt.isoformat = true := by
  obtain ⟨h1, h2, h3, h4, h5, h6, h7, h8, h9, h10⟩ := h
  unfold DateTime.isoformat isISO8601 pad4 pad2 pad6
  by_cases hm : dt.microsecond = 0
  · simp only [hm, beq_self_eq_true, if_true, List.cons_append, List.nil_append,
      List.append_nil]
    simp only [List.all_cons, List.all_nil, Bool.and_eq_true, beq_self_eq_true,
      and_true, true_and]
    repeat' apply And.intro
    all_goals first
      | rfl
      | (apply digitChar_isDigit; omega)
  · have hm2 : (dt.microsecond == 0) = false := by simpa using hm
    simp only [hm2, Bool.false_eq_true, if_false, List.cons_append, List.nil_append]
    simp only [List.all_cons, List.all_nil, Bool.and_eq_true, beq_self_eq_true,
      and_true, true_and]
    repeat' apply And.intro
    all_goals first
      | rfl
      | (apply digitChar_isDigit; omega)

/-! ## Claim theorems -/

/-- C1: invoking any tool with an argument mapping that misses a
schema parameter without a default, or that binds a name outside the
schema, yields a descriptive call-shape error and performs no backend
access at all — the invocation target is never reached. -/
theorem C1_call_shape_checked (t : Tool) (args : List (String × PyVal))
    (h : (∃ p ∈ t.params, p.hasDefault = false ∧ ∀ a ∈ args, a.1 ≠ p.name) ∨
         (∃ a ∈ args, ∀ p ∈ t.params, p.name ≠ a.1)) :
    ∃ msg, t.invoke args = (.callShapeError msg, []) := by
  have hck : checkCallShape t.params args ≠ Option.none := by
    unfold checkCallShape
    cases hf1 : t.params.find?
        (fun p => !p.hasDefault && !(args.any (fun a => a.1 == p.name))) with
    | some p => simp
    | none =>
      rcases h with ⟨p, hp, hd, hm⟩ | ⟨a, ha, hm⟩
      · exfalso
        have hnp := List.find?_eq_none.mp hf1 p hp
        simp [hd] at hnp
        obtain ⟨v, hv⟩ := hnp
        exact hm (p.name, v) hv rfl
      · cases hf2 : args.find?
            (fun a => !(t.params.any (fun p => p.name == a.1))) with
        | some a2 => simp
        | none =>
          exfalso
          have hna := List.find?_eq_none.mp hf2 a ha
          simp at hna
          obtain ⟨p, hp, hpe⟩ := hna
          exact hm p hp hpe
  obtain ⟨msg, hmsg⟩ := Option.ne_none_iff_exists'.mp hck
  refine ⟨msg, ?_⟩
  unfold Tool.invoke
  rw [hmsg]

/-- C1 witness: invoking the concrete tool with no arguments at all is
rejected with the descriptive message and an empty backend-access
trace. -/
theorem C1_call_shape_checked_witness :
    (∃ msg, demoTool.invoke [] = (.callShapeError msg, [])) ∧
    demoTool.invoke [] = (.callShapeError "missing required argument: url", []) :=
  ⟨C1_call_shape_checked demoTool []
     (Or.inl ⟨⟨"url", false⟩, by simp [demoTool], rfl, by simp⟩),
   rfl⟩

/-- C2: on a URL where the HTTP request fails, or where the response
status is an error status (4xx/5xx, e.g. HTTP 500), `GET_request` and
`POST_request` return as a normal value the string `"An error occurred: "`
followed by the underlying error text, and no exception crosses the
adapter boundary. -/
theorem C2_http_soft_failure (env : HttpEnv) (url : String)
    (data : List (String × PyVal)) :
    (∀ m, env.httpGet url = .failure m →
      GET_request env url = .ok (.str ("An error occurred: " ++ m))) ∧
    (∀ st body, env.httpGet url = .response st body → 400 ≤ st → st < 600 →
      GET_request env url = .ok (.str ("An error occurred: " ++ httpErrorMsg st url))) ∧
    (∀ m, env.httpPost url data = .failure m →
      POST_request env url data = .ok (.str ("An error occurred: " ++ m))) ∧
    (∀ st body, env.httpPost url data = .response st body → 400 ≤ st → st < 600 →
      POST_request env url data = .ok (.str ("An error occurred: " ++ httpErrorMsg st url))) := by
  refine ⟨fun m h => ?_, fun st body h h4 h6 => ?_, fun m h => ?_, fun st body h h4 h6 => ?_⟩
  · simp [GET_request, requests_get, h, catchRequestException, ExnClass.isRequestException,
      Bind.bind, Except.bind]
  · simp [GET_request, requests_get, h, raise_for_status, httpErrorMsg,
      catchRequestException, ExnClass.isRequestException, Bind.bind, Except.bind, h4, h6]
  · simp [POST_request, requests_post, h, catchRequestException, ExnClass.isRequestException,
      Bind.bind, Except.bind]
  · simp [POST_request, requests_post, h, raise_for_status, httpErrorMsg,
      catchRequestException, ExnClass.isRequestException, Bind.bind, Except.bind, h4, h6]

/-- C2 witness: the soft-failure statement applied in the concrete
failing environment. -/
theorem C2_http_soft_failure_witness :
    downEnv.httpGet "http://api.example/a" = .failure "connection refused" ∧
    GET_request downEnv "http://api.example/a" =
      .ok (.str "An error occurred: connection refused") ∧
    httpErrorMsg 500 "http://api.example/a" =
      "500 Server Error for url: http://api.example/a" ∧
    POST_request downEnv "http://api.example/a" [] =
      .ok (.str ("An error occurred: " ++ httpErrorMsg 500 "http://api.example/a")) :=
  ⟨rfl,
   (C2_http_soft_failure downEnv "http://api.example/a" []).1 "connection refused" rfl,
   rfl,
   (C2_http_soft_failure downEnv "http://api.example/a" []).2.2.2 500 "oops" rfl
     (by decide) (by decide)⟩

/-- C3: hard backend failures pass the adapters untouched — a query on
which the engine raises makes `execute_sql_tool` propagate that very
fault (never an `.ok` failure string), an unknown table makes
`get_table_schema_tool` propagate the introspection fault, and a
terminal pipeline state with no `"answer"` binding makes
`search_collection` raise the `KeyError` lookup failure rather than
return a default. -/
theorem C3_hard_failures_propagate (DB_ENGINE : Engine) (query table_name : String)
    (RAG_collection : RAGCollection) (q : String) :
    (∀ e, DB_ENGINE.runQuery query = .error e →
      (execute_sql_tool query DB_ENGINE).1 = .error e ∧
      ∀ s, (execute_sql_tool query DB_ENGINE).1 ≠ .ok s) ∧
    (∀ e, DB_ENGINE.get_columns table_name = .error e →
      get_table_schema_tool table_name DB_ENGINE = .error e) ∧
    ((∀ p ∈ (RAG_collection.invoke q).get_final_state, p.1 ≠ "answer") →
      search_collection RAG_collection q = .error ⟨.keyError, "answer"⟩) := by
  refine ⟨fun e h => ⟨?_, fun s => ?_⟩, fun e h => ?_, fun h => ?_⟩
  · simp [execute_sql_tool, h]
  · simp [execute_sql_tool, h]
  · simp [get_table_schema_tool, h]
  · have hfind : ((RAG_collection.invoke q).get_final_state).find?
        (fun p => p.1 == "answer") = Option.none := by
      rw [List.find?_eq_none]
      intro p hp
      simpa using h p hp
    simp [search_collection, dictIndex, hfind]

/-- C3 witness: the propagation statement applied at a malformed query,
an unknown table, and an answer-less pipeline. -/
theorem C3_hard_failures_propagate_witness :
    (execute_sql_tool "SELEC 1" exampleEngine).1 =
      .error ⟨.dbError, "near SELEC: syntax error"⟩ ∧
    get_table_schema_tool "ghosts" exampleEngine =
      .error ⟨.dbError, "no such table: ghosts"⟩ ∧
    search_collection ragNoAnswer "what is UdaPlay" = .error ⟨.keyError, "answer"⟩ :=
  ⟨((C3_hard_failures_propagate exampleEngine "SELEC 1" "ghosts" ragNoAnswer
      "what is UdaPlay").1 ⟨.dbError, "near SELEC: syntax error"⟩ rfl).1,
   (C3_hard_failures_propagate exampleEngine "SELEC 1" "ghosts" ragNoAnswer
      "what is UdaPlay").2.1 ⟨.dbError, "no such table: ghosts"⟩ rfl,
   (C3_hard_failures_propagate exampleEngine "SELEC 1" "ghosts" ragNoAnswer
      "what is UdaPlay").2.2
     (by intro p hp; simp [ragNoAnswer, Run.get_final_state] at hp; simp [hp])⟩

/-- C4: every `execute_sql_tool` call opens one transactional scope that
auto-commits on normal completion and rolls back when execution or fetch
raises, so the scope is released (commit or rollback) on every exit
path. -/
theorem C4_transaction_scope (query : String) (DB_ENGINE : Engine) :
    ((execute_sql_tool query DB_ENGINE).2.head? = some .begin) ∧
    (∀ s, (execute_sql_tool query DB_ENGINE).1 = .ok s →
      (execute_sql_tool query DB_ENGINE).2 = [.begin, .commit]) ∧
    (∀ e, (execute_sql_tool query DB_ENGINE).1 = .error e →
      (execute_sql_tool query DB_ENGINE).2 = [.begin, .rollback]) ∧
    ((execute_sql_tool query DB_ENGINE).2.getLast? = some .commit ∨
      (execute_sql_tool query DB_ENGINE).2.getLast? = some .rollback) := by
  cases hrun : DB_ENGINE.runQuery query with
  | ok rows =>
    exact ⟨by simp [execute_sql_tool, hrun], fun s _ => by simp [execute_sql_tool, hrun],
      fun e he => by simp [execute_sql_tool, hrun] at he,
      Or.inl (by simp [execute_sql_tool, hrun])⟩
  | error e =>
    exact ⟨by simp [execute_sql_tool, hrun], fun s hs => by simp [execute_sql_tool, hrun] at hs,
      fun e2 he => by simp [execute_sql_tool, hrun],
      Or.inr (by simp [execute_sql_tool, hrun])⟩

/-- C4 witness: the transaction-scope statement applied to a succeeding
and to a failing query on the concrete engine. -/
theorem C4_transaction_scope_witness :
    (execute_sql_tool "SELECT 1" exampleEngine).2 = [.begin, .commit] ∧
    (execute_sql_tool "SELEC 1" exampleEngine).2 = [.begin, .rollback] :=
  ⟨(C4_transaction_scope "SELECT 1" exampleEngine).2.1 "[(1,)]" rfl,
   (C4_transaction_scope "SELEC 1" exampleEngine).2.2.1
     ⟨.dbError, "near SELEC: syntax error"⟩ rfl⟩

/-- C5: on a success-status response (2xx) whose body parses as JSON,
`GET_request` and `POST_request` return the parsed structured value
itself, unmodified — the output of the JSON parser, never the raw body
text. -/
theorem C5_http_success_parsed (env : HttpEnv) (url : String)
    (data : List (String × PyVal)) :
    (∀ st body j, env.httpGet url = .response st body → 200 ≤ st → st < 300 →
      env.parseJson body = some j → GET_request env url = .ok j) ∧
    (∀ st body j, env.httpPost url data = .response st body → 200 ≤ st → st < 300 →
      env.parseJson body = some j → POST_request env url data = .ok j) := by
  constructor
  all_goals intro st body j h h2 h3 hp
  all_goals have hns : ¬(400 ≤ st ∧ st < 600) := by omega
  · simp [GET_request, requests_get, h, raise_for_status, hns, Response.json, hp,
      catchRequestException, Bind.bind, Except.bind, Pure.pure, Except.pure]
  · simp [POST_request, requests_post, h, raise_for_status, hns, Response.json, hp,
      catchRequestException, Bind.bind, Except.bind, Pure.pure, Except.pure]

/-- C5 witness: the success-parsing statement applied in the concrete
good-JSON environment. -/
theorem C5_http_success_parsed_witness :
    okJsonEnv.parseJson "[1]" = some (.list [.int 1]) ∧
    GET_request okJsonEnv "http://api.example/a" = .ok (.list [.int 1]) ∧
    POST_request okJsonEnv "http://api.example/a" [] = .ok (.list [.int 1]) :=
  ⟨rfl,
   (C5_http_success_parsed okJsonEnv "http://api.example/a" []).1 200 "[1]"
     (.list [.int 1]) rfl (by decide) (by decide) rfl,
   (C5_http_success_parsed okJsonEnv "http://api.example/a" []).2 200 "[1]"
     (.list [.int 1]) rfl (by decide) (by decide) rfl⟩

/-- C6: when the provider's response dict has no `"answer"` binding,
`web_search` returns a result whose `answer` field is present and equals
the empty string — not absent, not `None`. -/
theorem C6_missing_answer_empty (env : SearchEnv) (query depth : String)
    (h : ∀ p ∈ env.search query depth, p.1 ≠ "answer") :
    (web_search env query depth).answer = .str "" ∧
    (web_search env query depth).answer ≠ PyVal.none := by
  have hfind : (env.search query depth).find? (fun p => p.1 == "answer") = Option.none := by
    rw [List.find?_eq_none]
    intro p hp
    simpa using h p hp
  constructor
  · simp [web_search, dictGet, hfind]
  · simp [web_search, dictGet, hfind]

/-- C6 witness: the empty-answer statement applied in the concrete
no-answer environment. -/
theorem C6_missing_answer_empty_witness :
    (web_search tavilyEnvNoAnswer "best RPG 2024" "advanced").answer = .str "" :=
  (C6_missing_answer_empty tavilyEnvNoAnswer "best RPG 2024" "advanced"
    (by intro p hp; simp [tavilyEnvNoAnswer] at hp; simp [hp])).1

/-- C7: `web_search` stamps its result with metadata whose `query` is the
input query verbatim and whose `timestamp` is the ISO-8601 rendering of
the wall-clock reading taken inside the call, independent of anything
(timestamps included) in the provider's response. -/
theorem C7_search_metadata (env : SearchEnv) (query depth : String)
    (h : env.now.Valid) :
    (web_search env query depth).search_metadata.query = query ∧
    (web_search env query depth).search_metadata.timestamp = env.now.isoformat ∧
    isISO8601 (web_search env query depth).search_metadata.timestamp = true ∧
    (∀ env2 : SearchEnv, env2.now = env.now →
      (web_search env2 query depth).search_metadata =
        (web_search env query depth).search_metadata) := by
  refine ⟨rfl, rfl, ?_, ?_⟩
  · exact isoformat_isISO8601 env.now h
  · intro env2 h2
    simp [web_search, h2]

/-- C7 witness: the metadata statement applied in the concrete
environment, with the timestamp evaluated. -/
theorem C7_search_metadata_witness :
    tavilyEnvNoAnswer.now.Valid ∧
    (web_search tavilyEnvNoAnswer "q" "advanced").search_metadata.query = "q" ∧
    (web_search tavilyEnvNoAnswer "q" "advanced").search_metadata.timestamp =
      "2026-10-12T09:05:03.123456" ∧
    isISO8601 (web_search tavilyEnvNoAnswer "q" "advanced").search_metadata.timestamp
      = true := by
  refine ⟨by decide, (C7_search_metadata tavilyEnvNoAnswer "q" "advanced" (by decide)).1,
    rfl, (C7_search_metadata tavilyEnvNoAnswer "q" "advanced" (by decide)).2.2.1⟩

/-- C8: for a table the engine knows, `get_table_schema_tool` returns the
textual rendering of the column-descriptor sequence — each descriptor
rendered with its five fields name, type, nullable, default, primary_key
in that order (`ColumnDescriptor.pyRepr`) — and the rendered sequence
preserves the table's column order position by position. -/
theorem C8_table_schema_rendering (table_name : String) (DB_ENGINE : Engine)
    (cols : List ColumnDescriptor)
    (h : DB_ENGINE.get_columns table_name = .ok cols) :
    get_table_schema_tool table_name DB_ENGINE =
      .ok (pyListStr (cols.map ColumnDescriptor.pyRepr)) ∧
    (cols.map ColumnDescriptor.pyRepr).length = cols.length ∧
    (∀ i, (cols.map ColumnDescriptor.pyRepr).get? i =
      (cols.get? i).map ColumnDescriptor.pyRepr) := by
  refine ⟨?_, by simp, fun i => by simp⟩
  simp [get_table_schema_tool, h]

/-- C8 witness: the schema-rendering statement applied to the example
table, with the per-position correspondence evaluated at both columns. -/
theorem C8_table_schema_rendering_witness :
    exampleEngine.get_columns "users" = .ok exampleCols ∧
    get_table_schema_tool "users" exampleEngine =
      .ok (pyListStr (exampleCols.map ColumnDescriptor.pyRepr)) ∧
    (exampleCols.map ColumnDescriptor.pyRepr).get? 0 =
      some (ColumnDescriptor.pyRepr ⟨"id", "INTEGER()", false, Option.none, true⟩) ∧
    (exampleCols.map ColumnDescriptor.pyRepr).get? 1 =
      some (ColumnDescriptor.pyRepr ⟨"name", "TEXT()", false, Option.none, false⟩) :=
  ⟨rfl, (C8_table_schema_rendering "users" exampleEngine exampleCols rfl).1, rfl, rfl⟩

/-- C9: when the pipeline's terminal state binds `"answer"`,
`search_collection` returns exactly that bound value, untransformed and
with no other field of the terminal state included. -/
theorem C9_answer_extracted (RAG_collection : RAGCollection) (query : String)
    (k : String) (v : PyVal)
    (h : ((RAG_collection.invoke query).get_final_state).find?
      (fun p => p.1 == "answer") = some (k, v)) :
    search_collection RAG_collection query = .ok v := by
  simp [search_collection, dictIndex, h]

/-- C9 witness: the extraction statement applied to the concrete
pipeline; the result is exactly `"42"`. -/
theorem C9_answer_extracted_witness :
    search_collection ragWithAnswer "When was Pokemon Gold released?" = .ok (.str "42") :=
  C9_answer_extracted ragWithAnswer "When was Pokemon Gold released?" "answer" (.str "42") rfl

/-- C10 counterexample: on a success-status response whose body is not
valid JSON, the JSON decode error does NOT escape the adapters — it is
caught by the `except requests.RequestException` clause (the client's
`JSONDecodeError` is a `RequestException` subclass since requests
2.27.0) and the adapters return the soft-failure string normally. -/
theorem C10_counterexample :
    GET_request badJsonEnv "http://api.example/item" =
      .ok (.str ("An error occurred: " ++ jsonDecodeErrorMsg)) ∧
    POST_request badJsonEnv "http://api.example/item" [] =
      .ok (.str ("An error occurred: " ++ jsonDecodeErrorMsg)) := by
  exact ⟨rfl, rfl⟩

/-- C10 (amended): `GET_request` and `POST_request` catch exactly the
HTTP client's request exceptions; because the client's JSON decode
error is itself a request exception, a success-status response whose
body is not valid JSON is also caught, and the adapters return the
`"An error occurred"` soft-failure string instead of letting an
exception escape. -/
theorem C10_json_decode_caught (env : HttpEnv) (url : String)
    (data : List (String × PyVal)) (st : Nat) (body : String)
    (hst : ¬(400 ≤ st ∧ st < 600)) (hp : env.parseJson body = Option.none) :
    (env.httpGet url = .response st body →
      GET_request env url = .ok (.str ("An error occurred: " ++ jsonDecodeErrorMsg))) ∧
    (env.httpPost url data = .response st body →
      POST_request env url data = .ok (.str ("An error occurred: " ++ jsonDecodeErrorMsg))) := by
  constructor
  · intro h
    simp [GET_request, requests_get, h, raise_for_status, hst, Response.json, hp,
      catchRequestException, ExnClass.isRequestException, Bind.bind, Except.bind]
  · intro h
    simp [POST_request, requests_post, h, raise_for_status, hst, Response.json, hp,
      catchRequestException, ExnClass.isRequestException, Bind.bind, Except.bind]

/-- C10 witness: the amended statement applied in the concrete bad-JSON
environment. -/
theorem C10_json_decode_caught_witness :
    ¬(400 ≤ 200 ∧ 200 < 600) ∧
    GET_request badJsonEnv "http://api.example/item" =
      .ok (.str ("An error occurred: " ++ jsonDecodeErrorMsg)) :=
  ⟨by decide,
   (C10_json_decode_caught badJsonEnv "http://api.example/item" [] 200
      "<html>not json</html>" (by decide) rfl).1 rfl⟩
